import Mathlib

/-!
Verification development for the loophole frontend pipeline
(src/loophole/static/src/app.ts).

The TypeScript frontend is embedded shallowly:

* Wall-clock instants are modelled as `Int` milliseconds (`Date.now()`);
  the backend timestamp `capturedAt = Date.now() / 1000` is the exact
  rational `now / 1000 : ℚ`.
* The mutable module-level variables of app.ts (`audioBuffer`,
  `lastChunkTime`, `isRecording`, `pollInterval`, `chunkCount`, the
  transcript textarea value, status and button label) are collected in
  `AppState`; each handler becomes a pure state transformer.
* Calls into the pywebview backend (`transcribe_chunk`, `reset_buffer`)
  are recorded as a `List BackendCall` trace, listed in the order the
  calls actually reach the backend.  JavaScript is run-to-completion:
  a promise continuation (such as the `.then` of `blobToBase64` inside
  `sendAudioChunk`, which performs the actual `transcribe_chunk` call)
  runs only after the currently executing synchronous function body has
  returned.  Hence a synchronous backend call made later in the same
  body is traced before the deferred `transcribe_chunk`.
* Each buffered sample block carries a ghost field `arrivedAt`: the
  wall-clock instant the worklet message handler received it.  app.ts
  does not store this value; it exists in the model only so that
  properties about "the capture time of the first buffered sample" can
  be stated and compared with what the code actually stamps.
* Float32 audio samples are modelled as exact rationals.  The clamp and
  scale performed by the worklet message handler are exact in this
  model; the Int16Array element conversion (truncate toward zero, wrap
  modulo 2^16 into the signed range) is modelled explicitly.
* The WAV container encoding (`createWavFromInt16`) and base64 transport
  are information-preserving packaging of the sample array and are kept
  abstract: the trace records the flat sample list itself.
-/

namespace Loophole

/-- UI status states of `updateStatus` in app.ts. -/
inductive StatusState
  | idle
  | recording
  | processing
  | ready
  | error
deriving DecidableEq

/-- The `TranscriptionResult` interface of app.ts.  The optional `error`
field is `Option String`; all other fields are present. -/
structure TranscriptionResult where
  text : String
  new_paragraph : Bool
  has_speech : Bool
  captured_at : ℚ
  transcribed_at : ℚ
  latency_ms : ℚ
  error : Option String
deriving DecidableEq

/-- One sample block pushed by the audio worklet message handler.
`samples` is the converted Int16 data; `arrivedAt` is the ghost
wall-clock arrival instant in milliseconds (not stored by app.ts). -/
structure Block where
  samples : List Int
  arrivedAt : Int
deriving DecidableEq

/-- The module-level mutable state of app.ts relevant to the pipeline. -/
structure AppState where
  audioStream : Option Nat
  audioContext : Option Nat
  workletNode : Option Nat
  isRecording : Bool
  pollInterval : Option Nat
  audioBuffer : List Block
  lastChunkTime : Int
  chunkCount : Nat
  transcript : String
  status : StatusState
  recordBtnText : String
deriving DecidableEq

/-- A call into the pywebview backend, as it reaches the backend. -/
inductive BackendCall
  | transcribeChunk (samples : List Int) (capturedAt : ℚ)
  | resetBuffer
deriving DecidableEq

/-- `const CHUNK_DURATION_MS = 3000;` (app.ts line 72). -/
def CHUNK_DURATION_MS : Int := 3000

/-- Truncation of a rational toward zero, as JavaScript ToInt16 does
before wrapping. -/
def ratTrunc (q : ℚ) : Int :=
  if 0 ≤ q then ⌊q⌋ else -⌊-q⌋

/-- JavaScript Int16Array element conversion (ToInt16): truncate toward
zero, reduce modulo 2^16, reinterpret in the signed 16-bit range. -/
def toInt16 (q : ℚ) : Int :=
  if ratTrunc q % 65536 < 32768 then ratTrunc q % 65536
  else ratTrunc q % 65536 - 65536

/-- The float32-to-int16 conversion in the worklet message handler
(app.ts lines 118-121):
`const s = Math.max(-1, Math.min(1, floatData[i]));`
`int16Data[i] = s < 0 ? s * 0x8000 : s * 0x7FFF;` -/
def float32ToInt16 (x : ℚ) : Int :=
  if max (-1 : ℚ) (min 1 x) < 0 then toInt16 (max (-1 : ℚ) (min 1 x) * 32768)
  else toInt16 (max (-1 : ℚ) (min 1 x) * 32767)

/-- The flat sample content of the current buffer, in push order: what
the concatenation loop of `sendAudioChunk` (lines 160-166) produces. -/
def bufferSamples (s : AppState) : List Int :=
  (s.audioBuffer.map Block.samples).flatten

/-- `sendAudioChunk` (app.ts lines 153-184).  Guard: return if
`audioBuffer.length === 0`.  Otherwise increment `chunkCount`, stamp
`capturedAt = Date.now() / 1000` (the emission instant `now`),
concatenate the buffered blocks in push order, clear the buffer, and
(through `blobToBase64(...).then`, i.e. deferred past the current
synchronous body) call `transcribe_chunk` on the backend. -/
def sendAudioChunk (s : AppState) (now : Int) : AppState × List BackendCall :=
  if s.audioBuffer.length = 0 then (s, [])
  else
    ({ s with chunkCount := s.chunkCount + 1, audioBuffer := [] },
     [BackendCall.transcribeChunk ((s.audioBuffer.map Block.samples).flatten)
        ((now : ℚ) / 1000)])

/-- The worklet `port.onmessage` handler (app.ts lines 114-130): convert
the float block, push it onto `audioBuffer`, then if
`now - lastChunkTime >= CHUNK_DURATION_MS` call `sendAudioChunk()` and
set `lastChunkTime = now`.  Both `Date.now()` reads of one handler run
are modelled as the same instant `now`. -/
def handleAudioBlock (s : AppState) (floatData : List ℚ) (now : Int) :
    AppState × List BackendCall :=
  let s1 := { s with audioBuffer :=
    s.audioBuffer ++ [{ samples := floatData.map float32ToInt16, arrivedAt := now }] }
  if CHUNK_DURATION_MS ≤ now - s1.lastChunkTime then
    ({ (sendAudioChunk s1 now).1 with lastChunkTime := now }, (sendAudioChunk s1 now).2)
  else (s1, [])

/-- Run a sequence of worklet messages (block, arrival instant) through
`handleAudioBlock`, collecting every backend call in order. -/
def runBlocks (s : AppState) : List (List ℚ × Int) → AppState × List BackendCall
  | [] => (s, [])
  | b :: rest =>
    ((runBlocks (handleAudioBlock s b.1 b.2).1 rest).1,
     (handleAudioBlock s b.1 b.2).2 ++ (runBlocks (handleAudioBlock s b.1 b.2).1 rest).2)

/-- The flat sample content submitted to the backend by a call trace. -/
def emittedSamples (calls : List BackendCall) : List Int :=
  (calls.filterMap fun c => match c with
    | BackendCall.transcribeChunk ss _ => some ss
    | BackendCall.resetBuffer => none).flatten

/-- `startRecording` (app.ts lines 74-151), success path.  Guard: return
if `isRecording`.  The acquired stream, context, worklet node and the
`setInterval` handle are parameters of the model (they come from the
browser).  Sets `audioBuffer = []`, `lastChunkTime = Date.now()`,
`isRecording = true`, starts the 500 ms poll interval and updates the
button and status. -/
def startRecording (s : AppState) (now : Int)
    (stream ctx worklet interval : Nat) : AppState :=
  if s.isRecording then s
  else
    { s with
      audioStream := some stream,
      audioContext := some ctx,
      workletNode := some worklet,
      audioBuffer := [],
      lastChunkTime := now,
      isRecording := true,
      pollInterval := some interval,
      recordBtnText := "Stop Recording",
      status := StatusState.recording }

/-- `if (pollInterval) { clearInterval(pollInterval); pollInterval = null; }`
(app.ts lines 231-234).  JavaScript truthiness: a handle of 0 would not
be cleared; `window.setInterval` returns a positive id. -/
def clearPollHandle (p : Option Nat) : Option Nat :=
  match p with
  | some h => if h = 0 then some h else none
  | none => none

/-- `stopRecording` (app.ts lines 224-261).  Guard: return if
`!isRecording`.  Otherwise: call `sendAudioChunk()` (whose
`transcribe_chunk` is deferred behind the `blobToBase64` promise), clear
the poll interval, synchronously call `reset_buffer` on the backend,
release the audio objects, clear the buffer, leave recording state and
update the UI.  The returned trace lists backend calls in the order they
reach the backend: the synchronous `reset_buffer` precedes the deferred
`transcribe_chunk`, because the promise continuation only runs after the
synchronous body of `stopRecording` has returned. -/
def stopRecording (s : AppState) (now : Int) : AppState × List BackendCall :=
  if s.isRecording = false then (s, [])
  else
    ({ (sendAudioChunk s now).1 with
        pollInterval := clearPollHandle (sendAudioChunk s now).1.pollInterval,
        workletNode := none,
        audioContext := none,
        audioStream := none,
        audioBuffer := [],
        isRecording := false,
        recordBtnText := "Start Recording",
        status := StatusState.idle },
     BackendCall.resetBuffer :: (sendAudioChunk s now).2)

/-- Whitespace test for the model of the JavaScript string `trim`. -/
def isWs (c : Char) : Bool :=
  c = ' ' || c = '\n' || c = '\t' || c = '\r'

/-- Model of JavaScript `String.prototype.trim`: drop whitespace from
both ends (restricted to the common ASCII whitespace characters). -/
def jsTrim (s : String) : String :=
  String.mk (((s.data.dropWhile isWs).reverse.dropWhile isWs).reverse)

/-- Model of JavaScript `String.prototype.endsWith` for a
single-character suffix: test the last character. -/
def endsWithChar (s : String) (c : Char) : Bool :=
  match s.data.getLast? with
  | some d => d = c
  | none => false

/-- `appendTranscript` (app.ts lines 387-402), as a pure function of the
current textarea value: if `newParagraph` and the transcript is
non-empty, insert a blank line; else if the transcript is non-empty and
does not already end in a space or newline, insert a single space; then
append the text. -/
def appendTranscript (current t : String) (newParagraph : Bool) : String :=
  if newParagraph = true ∧ 0 < current.length then current ++ "\n\n" ++ t
  else if 0 < current.length ∧ endsWithChar current ' ' = false ∧
      endsWithChar current '\n' = false then
    current ++ " " ++ t
  else current ++ t

/-- `handleTranscriptionResult` (app.ts lines 333-356), restricted to
its effect on the transcript text.  `if (result.error)` is a JavaScript
truthiness test: it fires exactly when `error` is a non-empty string.
`if (!has_speech || !text?.trim()) return;` skips silent or blank
results; otherwise `appendTranscript(text.trim(), new_paragraph)`. -/
def handleTranscriptionResult (transcript : String) (r : TranscriptionResult) : String :=
  if r.error.getD "" ≠ "" then transcript
  else if r.has_speech = false ∨ jsTrim r.text = "" then transcript
  else appendTranscript transcript (jsTrim r.text) r.new_paragraph

/-- Frontend state together with the backend result queue. -/
structure SysState where
  app : AppState
  pendingResults : List TranscriptionResult
deriving DecidableEq

/-- One firing opportunity of the 500 ms poll timer.  A `setInterval`
callback only runs while the interval is registered, so nothing happens
when `pollInterval` is `none`.  Otherwise `pollResults` (app.ts lines
299-331) runs: it drains all pending results and handles each in order.
Modelled from the spec: the backend `get_pending_results` (not under
src/) follows the ResultQueue drain contract of spec section 4.5 -
atomically remove and return all queued results in FIFO order. -/
def pollTick (st : SysState) : SysState × List TranscriptionResult :=
  match st.app.pollInterval with
  | none => (st, [])
  | some _ =>
    ({ app := { st.app with
          transcript := st.pendingResults.foldl handleTranscriptionResult st.app.transcript },
       pendingResults := [] },
     st.pendingResults)

/-- A concrete mid-recording state: one buffered block `[5]` that
arrived at wall-clock 0 ms, last chunk emission at 0 ms. -/
def recState : AppState :=
  { audioStream := some 1,
    audioContext := some 1,
    workletNode := some 1,
    isRecording := true,
    pollInterval := some 7,
    audioBuffer := [{ samples := [5], arrivedAt := 0 }],
    lastChunkTime := 0,
    chunkCount := 0,
    transcript := "",
    status := StatusState.recording,
    recordBtnText := "Stop Recording" }

/-- A concrete idle state: nothing recording, empty buffer, no poll. -/
def idleState : AppState :=
  { audioStream := none,
    audioContext := none,
    workletNode := none,
    isRecording := false,
    pollInterval := none,
    audioBuffer := [],
    lastChunkTime := 0,
    chunkCount := 0,
    transcript := "",
    status := StatusState.idle,
    recordBtnText := "Start Recording" }

/-! ## Claim C5 -/

/-- Claim C5: calling `sendAudioChunk` when the sample buffer is empty
is a no-op: the state is unchanged and no backend call (in particular no
zero-length chunk) is produced. -/
theorem sendAudioChunk_empty_noop (s : AppState) (now : Int)
    (h : s.audioBuffer.length = 0) :
    sendAudioChunk s now = (s, []) := by
  unfold sendAudioChunk
  rw [if_pos h]

/-- Witness for C5 at the concrete idle state. -/
theorem sendAudioChunk_empty_noop_witness :
    idleState.audioBuffer.length = 0 ∧ sendAudioChunk idleState 1234 = (idleState, []) :=
  ⟨rfl, sendAudioChunk_empty_noop idleState 1234 rfl⟩

/-! ## Claim C10 -/

/-- Claim C10: `startRecording` while already recording returns
immediately, leaving the whole state unchanged; `stopRecording` while
not recording likewise returns unchanged and makes no backend call. -/
theorem recording_guard_noop (s : AppState) (now : Int)
    (stream ctx worklet interval : Nat) :
    (s.isRecording = true → startRecording s now stream ctx worklet interval = s) ∧
    (s.isRecording = false → stopRecording s now = (s, [])) := by
  constructor
  · intro h
    unfold startRecording
    rw [if_pos h]
  · intro h
    unfold stopRecording
    rw [if_pos h]

/-- Witness for C10: the guards fire on the concrete recording and idle
states. -/
theorem recording_guard_noop_witness :
    (recState.isRecording = true ∧ startRecording recState 0 1 1 1 1 = recState) ∧
    (idleState.isRecording = false ∧ stopRecording idleState 0 = (idleState, [])) :=
  ⟨⟨rfl, (recording_guard_noop recState 0 1 1 1 1).1 rfl⟩,
   ⟨rfl, (recording_guard_noop idleState 0 1 1 1 1).2 rfl⟩⟩

/-! ## Claim C1 -/

/-- Counterexample to claim C1: in `recState` the only buffered block
arrived at wall-clock 0 ms (capture time 0 s), yet emitting at
`now = 5000` ms stamps the chunk `captured_at = 5` s, which differs from
the arrival time of the first buffered sample.  `sendAudioChunk` stamps
the emission instant, not the capture instant of the first sample. -/
theorem sendAudioChunk_stamps_emit_time_cex :
    recState.audioBuffer.map Block.arrivedAt = [0] ∧
    (sendAudioChunk recState 5000).2 = [BackendCall.transcribeChunk [5] 5] ∧
    (5 : ℚ) ≠ ((0 : Int) : ℚ) / 1000 := by
  refine ⟨rfl, ?_, by norm_num⟩
  show [BackendCall.transcribeChunk [5] ((5000 : ℚ) / 1000)] =
    [BackendCall.transcribeChunk [5] 5]
  norm_num

/-- Claim C1 amended: every chunk emitted by `sendAudioChunk` carries
the buffered samples in push order and is stamped with the emission
instant `now / 1000` (the value of `Date.now() / 1000` when
`sendAudioChunk` runs), not with the arrival time of the first buffered
sample. -/
theorem sendAudioChunk_capturedAt_is_emit_time (s : AppState) (now : Int)
    (c : BackendCall) (h : c ∈ (sendAudioChunk s now).2) :
    c = BackendCall.transcribeChunk (bufferSamples s) ((now : ℚ) / 1000) := by
  unfold sendAudioChunk at h
  split at h
  · simp at h
  · rw [List.mem_singleton] at h
    rw [h]
    rfl

/-- Witness for the amended C1 at the concrete recording state. -/
theorem sendAudioChunk_capturedAt_is_emit_time_witness :
    BackendCall.transcribeChunk [5] ((5000 : ℚ) / 1000) =
      BackendCall.transcribeChunk (bufferSamples recState) ((5000 : ℚ) / 1000) := by
  have hm : BackendCall.transcribeChunk [5] ((5000 : ℚ) / 1000) ∈
      (sendAudioChunk recState 5000).2 := by
    show BackendCall.transcribeChunk [5] ((5000 : ℚ) / 1000) ∈
      [BackendCall.transcribeChunk [5] ((5000 : ℚ) / 1000)]
    exact List.mem_singleton.mpr rfl
  exact sendAudioChunk_capturedAt_is_emit_time recState 5000 _ hm

/-! ## Claim C3 -/

/-- Claim C3 is contradicted by the event-loop ordering: stopping in
`recState` at `now = 5000` ms produces the backend call trace
`[reset_buffer, transcribe_chunk [5] 5]` - the buffer reset reaches the
backend BEFORE the flushed audio does, because `transcribe_chunk` is
invoked inside the `blobToBase64(...).then` continuation, which only
runs after the synchronous body of `stopRecording` (including the
`reset_buffer` call) has completed. -/
theorem stopRecording_reset_precedes_flush_submit :
    (stopRecording recState 5000).2 =
      [BackendCall.resetBuffer, BackendCall.transcribeChunk [5] 5] := by
  show BackendCall.resetBuffer :: (sendAudioChunk recState 5000).2 =
    [BackendCall.resetBuffer, BackendCall.transcribeChunk [5] 5]
  show [BackendCall.resetBuffer, BackendCall.transcribeChunk [5] ((5000 : ℚ) / 1000)] =
    [BackendCall.resetBuffer, BackendCall.transcribeChunk [5] 5]
  norm_num

/-! ## Claim C4 -/

/-- A completed result that arrives in the backend queue only after
recording has stopped. -/
def lateResult : TranscriptionResult :=
  { text := "late",
    new_paragraph := false,
    has_speech := true,
    captured_at := 0,
    transcribed_at := 1,
    latency_ms := 1000,
    error := none }

/-- The system right after stopping from `recState`, with `lateResult`
completed afterwards and waiting in the backend queue. -/
def stoppedSys : SysState :=
  { app := (stopRecording recState 5000).1, pendingResults := [lateResult] }

/-- `sendAudioChunk` never touches the poll interval. -/
theorem sendAudioChunk_pollInterval (s : AppState) (now : Int) :
    (sendAudioChunk s now).1.pollInterval = s.pollInterval := by
  unfold sendAudioChunk
  split <;> rfl

/-- A poll tick does nothing when no interval is registered. -/
theorem pollTick_none (st : SysState) (h : st.app.pollInterval = none) :
    pollTick st = (st, []) := by
  unfold pollTick
  rw [h]

/-- Counterexample to claim C4: after stopping from `recState`, a result
completed after the stop sits in the queue, but the poll interval is
cleared, so a poll tick fires nothing: the queue is not drained, no
result is observed, and the state does not change (hence no number of
further ticks ever delivers it).  The poller does NOT continue to
observe results produced after the stop. -/
theorem pollTick_after_stop_observes_nothing_cex :
    stoppedSys.app.pollInterval = none ∧
    stoppedSys.pendingResults = [lateResult] ∧
    pollTick stoppedSys = (stoppedSys, []) := by
  refine ⟨rfl, rfl, ?_⟩
  exact pollTick_none stoppedSys rfl

/-- Claim C4 amended: `stopRecording` makes no call that cancels an
in-flight transcription job, but it clears the poll interval, so the
frontend performs no further polls: any result completed after the stop
stays in the backend queue unobserved (until a new recording session
registers a fresh interval). -/
theorem stopRecording_clears_poll_interval (s : AppState) (now : Int)
    (q : List TranscriptionResult) (h : s.isRecording = true)
    (h2 : s.pollInterval.getD 1 ≠ 0) :
    (stopRecording s now).1.pollInterval = none ∧
    pollTick { app := (stopRecording s now).1, pendingResults := q } =
      ({ app := (stopRecording s now).1, pendingResults := q }, []) := by
  have hguard : ¬ s.isRecording = false := by simp [h]
  have hp : (stopRecording s now).1.pollInterval = none := by
    unfold stopRecording
    rw [if_neg hguard]
    show clearPollHandle (sendAudioChunk s now).1.pollInterval = none
    rw [sendAudioChunk_pollInterval]
    unfold clearPollHandle
    cases hpi : s.pollInterval with
    | none => rfl
    | some k =>
      rw [hpi] at h2
      rw [Option.getD_some] at h2
      show (if k = 0 then some k else none) = none
      rw [if_neg h2]
  exact ⟨hp, pollTick_none _ hp⟩

/-- Witness for the amended C4 at the concrete recording state. -/
theorem stopRecording_clears_poll_interval_witness :
    recState.isRecording = true ∧ recState.pollInterval.getD 1 ≠ 0 ∧
    ((stopRecording recState 5000).1.pollInterval = none ∧
      pollTick { app := (stopRecording recState 5000).1, pendingResults := [lateResult] } =
        ({ app := (stopRecording recState 5000).1, pendingResults := [lateResult] }, [])) :=
  ⟨rfl, by decide,
   stopRecording_clears_poll_interval recState 5000 [lateResult] rfl (by decide)⟩

/-! ## Claim C6 -/

/-- A non-empty buffer always yields a backend submission. -/
theorem sendAudioChunk_calls_nonempty (s : AppState) (now : Int)
    (h : ¬ s.audioBuffer.length = 0) : (sendAudioChunk s now).2 ≠ [] := by
  unfold sendAudioChunk
  rw [if_neg h]
  exact List.cons_ne_nil _ _

/-- Claim C6: a chunk is emitted on arrival of a sample block exactly
when the elapsed time since the last chunk emission reaches
`CHUNK_DURATION_MS` (whose default value is 3000 ms), and in that case
the last-emission time is updated to the current instant (otherwise it
is left unchanged). -/
theorem handleAudioBlock_emit_iff_elapsed (s : AppState) (fd : List ℚ) (now : Int) :
    CHUNK_DURATION_MS = 3000 ∧
    ((handleAudioBlock s fd now).2 ≠ [] ↔ CHUNK_DURATION_MS ≤ now - s.lastChunkTime) ∧
    (handleAudioBlock s fd now).1.lastChunkTime =
      (if CHUNK_DURATION_MS ≤ now - s.lastChunkTime then now else s.lastChunkTime) := by
  refine ⟨rfl, ?_, ?_⟩
  · unfold handleAudioBlock
    by_cases hc : CHUNK_DURATION_MS ≤ now - s.lastChunkTime
    · rw [if_pos hc]
      simp only [hc, iff_true]
      exact sendAudioChunk_calls_nonempty _ now (by simp)
    · rw [if_neg hc]
      simpa using hc
  · unfold handleAudioBlock
    by_cases hc : CHUNK_DURATION_MS ≤ now - s.lastChunkTime
    · rw [if_pos hc, if_pos hc]
    · rw [if_neg hc, if_neg hc]

/-! ## Claim C2 -/

/-- The samples submitted by a concatenation of call traces. -/
theorem emittedSamples_append (c1 c2 : List BackendCall) :
    emittedSamples (c1 ++ c2) = emittedSamples c1 ++ emittedSamples c2 := by
  unfold emittedSamples
  rw [List.filterMap_append, List.flatten_append]

/-- One worklet message conserves samples: what the handler emits plus
what remains buffered equals what was buffered before plus the converted
incoming block. -/
theorem handleAudioBlock_conservation (s : AppState) (fd : List ℚ) (now : Int) :
    emittedSamples (handleAudioBlock s fd now).2 ++
      bufferSamples (handleAudioBlock s fd now).1 =
    bufferSamples s ++ fd.map float32ToInt16 := by
  unfold handleAudioBlock
  by_cases hc : CHUNK_DURATION_MS ≤ now - s.lastChunkTime
  · rw [if_pos hc]
    unfold sendAudioChunk
    rw [if_neg (by simp)]
    simp [emittedSamples, bufferSamples]
  · rw [if_neg hc]
    simp [emittedSamples, bufferSamples]

/-- Claim C2: the chunk emitted by `sendAudioChunk` is exactly the
concatenation, in push order, of all blocks buffered since the previous
emission; the buffer is cleared on emission; and across any sequence of
worklet messages no sample is duplicated or dropped - the samples ever
submitted plus the samples still buffered are exactly the samples that
came in, in order. -/
theorem chunk_samples_conservation (s : AppState) (now : Int)
    (blocks : List (List ℚ × Int)) :
    ((sendAudioChunk s now).2 =
      if s.audioBuffer.length = 0 then []
      else [BackendCall.transcribeChunk (bufferSamples s) ((now : ℚ) / 1000)]) ∧
    (sendAudioChunk s now).1.audioBuffer = [] ∧
    (emittedSamples (runBlocks s blocks).2 ++ bufferSamples (runBlocks s blocks).1 =
      bufferSamples s ++ (blocks.map fun b => b.1.map float32ToInt16).flatten) := by
  refine ⟨?_, ?_, ?_⟩
  · unfold sendAudioChunk
    by_cases hb : s.audioBuffer.length = 0
    · rw [if_pos hb, if_pos hb]
    · rw [if_neg hb, if_neg hb]
      exact rfl
  · unfold sendAudioChunk
    by_cases hb : s.audioBuffer.length = 0
    · rw [if_pos hb]
      exact List.length_eq_zero.mp hb
    · rw [if_neg hb]
  · induction blocks generalizing s with
    | nil => simp [runBlocks, emittedSamples]
    | cons b rest ih =>
      show emittedSamples ((handleAudioBlock s b.1 b.2).2 ++
          (runBlocks (handleAudioBlock s b.1 b.2).1 rest).2) ++
        bufferSamples (runBlocks (handleAudioBlock s b.1 b.2).1 rest).1 = _
      rw [emittedSamples_append, List.append_assoc, ih]
      rw [← List.append_assoc, handleAudioBlock_conservation]
      simp

/-! ## Claim C7 -/

/-- Claim C7: when `new_paragraph` is true and the transcript is
non-empty, a blank-line separator is inserted before the appended text;
when `new_paragraph` is false the text is joined onto the existing
transcript with at most a single space inserted. -/
theorem appendTranscript_paragraph_spec (cur t : String) :
    (0 < cur.length → appendTranscript cur t true = cur ++ "\n\n" ++ t) ∧
    (appendTranscript cur t false = cur ++ " " ++ t ∨
      appendTranscript cur t false = cur ++ t) := by
  constructor
  · intro h
    unfold appendTranscript
    rw [if_pos ⟨rfl, h⟩]
  · unfold appendTranscript
    rw [if_neg (by simp)]
    by_cases hc : 0 < cur.length ∧ endsWithChar cur ' ' = false ∧
        endsWithChar cur '\n' = false
    · exact Or.inl (if_pos hc)
    · exact Or.inr (if_neg hc)

/-- Witness for C7 at concrete strings. -/
theorem appendTranscript_paragraph_spec_witness :
    (0 < ("ab" : String).length ∧ appendTranscript "ab" "cd" true = "ab" ++ "\n\n" ++ "cd") ∧
    (appendTranscript "ab" "cd" false = "ab" ++ " " ++ "cd" ∨
      appendTranscript "ab" "cd" false = "ab" ++ "cd") :=
  ⟨⟨by decide, (appendTranscript_paragraph_spec "ab" "cd").1 (by decide)⟩,
   (appendTranscript_paragraph_spec "ab" "cd").2⟩

/-! ## Claim C8 -/

/-- A result whose optional error field is present but holds the empty
string: JavaScript truthiness makes `if (result.error)` NOT fire. -/
def emptyErrorResult : TranscriptionResult :=
  { text := "hi",
    new_paragraph := false,
    has_speech := true,
    captured_at := 0,
    transcribed_at := 0,
    latency_ms := 0,
    error := some "" }

/-- Counterexample to claim C8: `emptyErrorResult` has `error` set (to
the empty string), yet `handleTranscriptionResult` appends its text to
the transcript, because `if (result.error)` is a truthiness test that an
empty-string error passes through. -/
theorem handleTranscriptionResult_empty_error_cex :
    emptyErrorResult.error = some "" ∧
    handleTranscriptionResult "" emptyErrorResult = "hi" := by
  exact ⟨rfl, by decide⟩

/-- Claim C8 amended: the transcript is left unchanged whenever the
error field holds a NON-EMPTY string (the code treats an empty-string
error like an absent one), whenever `has_speech` is false, and whenever
the text trims to empty; conversely, whenever the transcript changes,
the error field was absent or empty, `has_speech` was true and the text
was non-blank. -/
theorem handleTranscriptionResult_gating (t : String) (r : TranscriptionResult) :
    (r.error.getD "" ≠ "" → handleTranscriptionResult t r = t) ∧
    (r.has_speech = false → handleTranscriptionResult t r = t) ∧
    (jsTrim r.text = "" → handleTranscriptionResult t r = t) ∧
    (handleTranscriptionResult t r ≠ t →
      r.error.getD "" = "" ∧ r.has_speech = true ∧ jsTrim r.text ≠ "") := by
  unfold handleTranscriptionResult
  by_cases h1 : r.error.getD "" ≠ ""
  · rw [if_pos h1]
    exact ⟨fun _ => rfl, fun _ => rfl, fun _ => rfl, fun hne => absurd rfl hne⟩
  · rw [if_neg h1]
    by_cases h2 : r.has_speech = false ∨ jsTrim r.text = ""
    · rw [if_pos h2]
      exact ⟨fun _ => rfl, fun _ => rfl, fun _ => rfl, fun hne => absurd rfl hne⟩
    · rw [if_neg h2]
      push_neg at h2
      refine ⟨fun hc => absurd hc h1, fun hc => absurd hc h2.1,
        fun hc => absurd hc h2.2, fun _ => ?_⟩
      refine ⟨not_not.mp h1, ?_, h2.2⟩
      cases hb : r.has_speech with
      | true => rfl
      | false => exact absurd hb h2.1

/-- Witness for the amended C8: each gate fires at a concrete result. -/
theorem handleTranscriptionResult_gating_witness :
    (({ emptyErrorResult with error := some "boom" } :
        TranscriptionResult).error.getD "" ≠ "" ∧
      handleTranscriptionResult "x" { emptyErrorResult with error := some "boom" } = "x") ∧
    (({ emptyErrorResult with has_speech := false } :
        TranscriptionResult).has_speech = false ∧
      handleTranscriptionResult "x" { emptyErrorResult with has_speech := false } = "x") ∧
    (jsTrim ({ emptyErrorResult with text := "  " } : TranscriptionResult).text = "" ∧
      handleTranscriptionResult "x" { emptyErrorResult with text := "  " } = "x") :=
  ⟨⟨by decide, (handleTranscriptionResult_gating "x"
      { emptyErrorResult with error := some "boom" }).1 (by decide)⟩,
   ⟨rfl, (handleTranscriptionResult_gating "x"
      { emptyErrorResult with has_speech := false }).2.1 rfl⟩,
   ⟨by decide, (handleTranscriptionResult_gating "x"
      { emptyErrorResult with text := "  " }).2.2.1 (by decide)⟩⟩

/-! ## Claim C9 -/

/-- The 16-bit wrap is the identity on values already in range. -/
theorem toInt16_id (q : ℚ) (h1 : -32768 ≤ ratTrunc q) (h2 : ratTrunc q ≤ 32767) :
    toInt16 q = ratTrunc q := by
  unfold toInt16
  split <;> omega

/-- Truncation bounds for a negative rational at least -32768. -/
theorem ratTrunc_bounds_neg (q : ℚ) (hlo : (-32768 : ℚ) ≤ q) (hhi : q < 0) :
    -32768 ≤ ratTrunc q ∧ ratTrunc q ≤ 0 := by
  unfold ratTrunc
  rw [if_neg (not_le.mpr hhi)]
  have h1 : (0 : ℤ) ≤ ⌊-q⌋ := Int.floor_nonneg.mpr (by linarith)
  have h2 : ⌊-q⌋ ≤ 32768 := by
    have hc : -q ≤ ((32768 : ℤ) : ℚ) := by push_cast; linarith
    calc ⌊-q⌋ ≤ ⌊((32768 : ℤ) : ℚ)⌋ := Int.floor_le_floor hc
      _ = 32768 := Int.floor_intCast _
  omega

/-- Truncation bounds for a nonnegative rational at most 32767. -/
theorem ratTrunc_bounds_nonneg (q : ℚ) (hlo : 0 ≤ q) (hhi : q ≤ 32767) :
    0 ≤ ratTrunc q ∧ ratTrunc q ≤ 32767 := by
  unfold ratTrunc
  rw [if_pos hlo]
  refine ⟨Int.floor_nonneg.mpr hlo, ?_⟩
  have hc : q ≤ ((32767 : ℤ) : ℚ) := by push_cast; linarith
  calc ⌊q⌋ ≤ ⌊((32767 : ℤ) : ℚ)⌋ := Int.floor_le_floor hc
    _ = 32767 := Int.floor_intCast _

/-- Every converted sample lies in the signed 16-bit range. -/
theorem float32ToInt16_in_range (x : ℚ) :
    -32768 ≤ float32ToInt16 x ∧ float32ToInt16 x ≤ 32767 := by
  unfold float32ToInt16
  have hlo : (-1 : ℚ) ≤ max (-1 : ℚ) (min 1 x) := le_max_left _ _
  have hhi : max (-1 : ℚ) (min 1 x) ≤ 1 := max_le (by norm_num) (min_le_left _ _)
  by_cases hneg : max (-1 : ℚ) (min 1 x) < 0
  · rw [if_pos hneg]
    have hb := ratTrunc_bounds_neg (max (-1 : ℚ) (min 1 x) * 32768)
      (by nlinarith) (by nlinarith)
    rw [toInt16_id _ (by omega) (by omega)]
    omega
  · rw [if_neg hneg]
    push_neg at hneg
    have hb := ratTrunc_bounds_nonneg (max (-1 : ℚ) (min 1 x) * 32767)
      (by nlinarith) (by nlinarith)
    rw [toInt16_id _ (by omega) (by omega)]
    omega

/-- The conversion depends on its input only through the clamp. -/
theorem float32ToInt16_clamp_eq (x y : ℚ)
    (h : max (-1 : ℚ) (min 1 x) = max (-1 : ℚ) (min 1 y)) :
    float32ToInt16 x = float32ToInt16 y := by
  unfold float32ToInt16
  rw [h]

/-- The sample value -1 converts to -32768. -/
theorem float32ToInt16_neg_one : float32ToInt16 (-1) = -32768 := by
  unfold float32ToInt16
  rw [show max (-1 : ℚ) (min 1 (-1)) = -1 by norm_num]
  rw [if_pos (by norm_num : (-1 : ℚ) < 0)]
  rw [show (-1 : ℚ) * 32768 = ((-32768 : ℤ) : ℚ) by norm_num]
  have h3 : ratTrunc ((-32768 : ℤ) : ℚ) = -32768 := by
    unfold ratTrunc
    rw [if_neg (by push_cast; norm_num)]
    rw [show -(((-32768 : ℤ) : ℚ)) = ((32768 : ℤ) : ℚ) by push_cast; ring]
    rw [Int.floor_intCast]
  unfold toInt16
  rw [h3]
  decide

/-- The sample value 1 converts to 32767. -/
theorem float32ToInt16_one : float32ToInt16 1 = 32767 := by
  unfold float32ToInt16
  rw [show max (-1 : ℚ) (min 1 1) = 1 by norm_num]
  rw [if_neg (by norm_num)]
  rw [show (1 : ℚ) * 32767 = ((32767 : ℤ) : ℚ) by norm_num]
  have h3 : ratTrunc ((32767 : ℤ) : ℚ) = 32767 := by
    unfold ratTrunc
    rw [if_pos (by push_cast; norm_num)]
    rw [Int.floor_intCast]
  unfold toInt16
  rw [h3]
  decide

/-- Inputs at or below -1 are clamped to -1 before scaling. -/
theorem float32ToInt16_clamp_low (x : ℚ) (h : x ≤ -1) :
    float32ToInt16 x = -32768 := by
  rw [float32ToInt16_clamp_eq x (-1) ?_, float32ToInt16_neg_one]
  rw [min_eq_right (h.trans (by norm_num)), max_eq_left h]
  norm_num

/-- Inputs at or above 1 are clamped to 1 before scaling. -/
theorem float32ToInt16_clamp_high (x : ℚ) (h : (1 : ℚ) ≤ x) :
    float32ToInt16 x = 32767 := by
  rw [float32ToInt16_clamp_eq x 1 ?_, float32ToInt16_one]
  rw [min_eq_left h]
  norm_num

/-- Claim C9: the conversion clamps its input to [-1, 1], scales
negative values by 32768 and nonnegative values by 32767, so every
converted sample lies in [-32768, 32767], with -1 mapping to -32768 and
1 mapping to 32767 (and saturation beyond the clamp range). -/
theorem float32ToInt16_spec :
    (∀ x : ℚ, -32768 ≤ float32ToInt16 x ∧ float32ToInt16 x ≤ 32767) ∧
    float32ToInt16 (-1) = -32768 ∧
    float32ToInt16 1 = 32767 ∧
    (∀ x : ℚ, x ≤ -1 → float32ToInt16 x = -32768) ∧
    (∀ x : ℚ, (1 : ℚ) ≤ x → float32ToInt16 x = 32767) :=
  ⟨float32ToInt16_in_range, float32ToInt16_neg_one, float32ToInt16_one,
   float32ToInt16_clamp_low, float32ToInt16_clamp_high⟩

/-- Witness for C9 at concrete sample values. -/
theorem float32ToInt16_spec_witness :
    (-32768 ≤ float32ToInt16 (1 / 2) ∧ float32ToInt16 (1 / 2) ≤ 32767) ∧
    ((-2 : ℚ) ≤ -1 ∧ float32ToInt16 (-2) = -32768) ∧
    ((1 : ℚ) ≤ 2 ∧ float32ToInt16 2 = 32767) :=
  ⟨float32ToInt16_spec.1 (1 / 2),
   ⟨by norm_num, float32ToInt16_spec.2.2.2.1 (-2) (by norm_num)⟩,
   ⟨by norm_num, float32ToInt16_spec.2.2.2.2 2 (by norm_num)⟩⟩

end Loophole
